import Mathlib

/-
Verification of the snitch ECS capacity collector.

This file gives a shallow embedding of the collector's measurement core
(collector.go, collections.go) and proves properties of it.  Provider calls
(ECS, CloudWatch) are modelled by an explicit environment supplying each
call's result; `Option` models an errored call (the code logs and substitutes
an empty result).  Go `int` values are modelled as unbounded `Int`, with Go's
truncated integer division rendered as `Int.tdiv`; Go map values default to
zero on absent keys, which the association-list model below reproduces.
Channel-based producers are modelled as the finite list of items the
corresponding pager delivers.  API interactions performed by a measurement
pass are additionally recorded as an explicit event trace so that claims
about which operations happen (and with which arguments) can be stated.
-/

namespace Snitch

/-- ECS `Resource` as used by the collector: a named integer quantity
(`Name`, `IntegerValue`). -/
structure Resource where
  Name : String
  IntegerValue : Int
deriving DecidableEq, Repr

/-- ECS `Attribute`: a key/value pair on a container instance. -/
structure Attribute where
  Name : String
  Value : String
deriving DecidableEq, Repr

/-- ECS `Task`: the collector reads only the `Cpu` and `Memory` decimal
strings of a described task. -/
structure Task where
  Cpu : String
  Memory : String
deriving DecidableEq, Repr

/-- ECS `ContainerInstance`: attribute list plus registered and remaining
resource vectors. -/
structure ContainerInstance where
  Attributes : List Attribute
  RegisteredResources : List Resource
  RemainingResources : List Resource
deriving DecidableEq, Repr

/-- CloudWatch `Dimension` (name/value pair). -/
structure Dimension where
  Name : String
  Value : String
deriving DecidableEq, Repr

/-- CloudWatch `MetricDatum`.  The code stores `aws.Float64(float64(v))` for an
integer `v`; the model keeps the integer.  The timestamp is an abstract clock
reading (`Nat`). -/
structure MetricDatum where
  MetricName : String
  Dimensions : List Dimension
  Timestamp : Nat
  Value : Int
  Unit : String
deriving DecidableEq, Repr

/-- Digit accumulator of Go `strconv.ParseUint` (base 10): fold each digit into
a running value.  The model keeps the exact value; clamping happens in
`goAtoi`. -/
def goAtoiDigits (ds : List Char) : Nat :=
  ds.foldl (fun acc c => acc * 10 + (c.toNat - 48)) 0

/-- Syntactic validity of a string for Go `strconv.Atoi`: an optional single
sign followed by a nonempty run of ASCII digits. -/
def atoiWellFormed (s : String) : Bool :=
  match s.data with
  | [] => false
  | c :: cs =>
    let ds : List Char := if c = '-' ∨ c = '+' then cs else c :: cs
    !(ds.isEmpty || ds.any (fun d => !d.isDigit))

/-- Model of Go `strconv.Atoi` as used by the collector: the integer VALUE the
call returns (the code logs the error but still uses this value).  A
syntactically invalid string yields 0 (`ErrSyntax`); a well-formed numeral
outside the signed 64-bit range yields the clamped bound (`ErrRange` returns
the maximum-magnitude `int64` of the appropriate sign). -/
def goAtoi (s : String) : Int :=
  match s.data with
  | [] => 0
  | c :: cs =>
    let neg : Bool := c = '-'
    let ds : List Char := if c = '-' ∨ c = '+' then cs else c :: cs
    if ds.isEmpty || ds.any (fun d => !d.isDigit) then 0
    else if neg then max (-(2 ^ 63)) (-(goAtoiDigits ds : Int))
    else min (2 ^ 63 - 1) ((goAtoiDigits ds : Int))

/-- ContainersPossible (collector.go): accumulate `IntegerValue / cpu` over
entries named "CPU" and `IntegerValue / memory` over entries named "MEMORY"
(Go truncated division), ignore other names, and return the smaller of the two
accumulators. -/
def ContainersPossible (cpu memory : Int) (resources : List Resource) : Int :=
  let r := resources.foldl
    (fun (acc : Int × Int) resource =>
      if resource.Name = "CPU" then (acc.1 + Int.tdiv resource.IntegerValue cpu, acc.2)
      else if resource.Name = "MEMORY" then (acc.1, acc.2 + Int.tdiv resource.IntegerValue memory)
      else acc)
    (0, 0)
  if r.1 < r.2 then r.1 else r.2

/-- getInstanceType (collector.go): first attribute named "ecs.instance-type",
or "" when absent. -/
def getInstanceType : List Attribute → String
  | [] => ""
  | attr :: rest => if attr.Name = "ecs.instance-type" then attr.Value else getInstanceType rest

/-- Go `map[string]int` modelled as an association list without duplicate
keys; iteration order is the insertion order (the Go map's order is
unspecified, and no claim depends on it). -/
def goMapSet : List (String × Int) → String → Int → List (String × Int)
  | [], k, v => [(k, v)]
  | (k', v') :: rest, k, v =>
    if k' = k then (k, v) :: rest else (k', v') :: goMapSet rest k v

/-- Go map read with the zero default for a missing key. -/
def goMapGet : List (String × Int) → String → Int
  | [], _ => 0
  | (k', v') :: rest, k => if k' = k then v' else goMapGet rest k

/-- Keys of a modelled Go map. -/
def goMapKeys (m : List (String × Int)) : List String :=
  m.map Prod.fst

/-- Values of a modelled Go map. -/
def goMapValues (m : List (String × Int)) : List Int :=
  m.map Prod.snd

/-- ClusterResources (collections.go): the four per-instance-type integer maps.
The Go struct's `Resources` field aliases these four maps under their metric
names; since the Go aliasing is by reference, the model derives it as
`ClusterResources.Resources` below. -/
structure ClusterResources where
  Cluster : String
  CPU : List (String × Int)
  Memory : List (String × Int)
  Registered : List (String × Int)
  Remaining : List (String × Int)
deriving DecidableEq, Repr

/-- NewClusterResources (collections.go): fresh ledger with four empty maps. -/
def NewClusterResources (cluster : String) : ClusterResources :=
  { Cluster := cluster, CPU := [], Memory := [], Registered := [], Remaining := [] }

/-- The `Resources` map of metric name to per-type map, exactly as wired by
NewClusterResources. -/
def ClusterResources.Resources (cr : ClusterResources) : List (String × List (String × Int)) :=
  [("LowestCommonMultipleCPU", cr.CPU),
   ("LowestCommonMultipleMemory", cr.Memory),
   ("RegisteredSchedulable", cr.Registered),
   ("RemainingSchedulable", cr.Remaining)]

/-- One loop iteration of DescribeResourcesByInstanceType's ledger update
(collector.go): overwrite the CPU/memory footprint for the type and add to the
registered/remaining counters. -/
def ClusterResources.record (cr : ClusterResources) (instanceType : String)
    (cpu memory registered remaining : Int) : ClusterResources :=
  { cr with
    CPU := goMapSet cr.CPU instanceType cpu,
    Memory := goMapSet cr.Memory instanceType memory,
    Registered := goMapSet cr.Registered instanceType
      (goMapGet cr.Registered instanceType + registered),
    Remaining := goMapSet cr.Remaining instanceType
      (goMapGet cr.Remaining instanceType + remaining) }

/-- ToMetricData (collections.go): one datum per (metric name, instance type)
entry, with the cluster-name and instance-type dimensions, unit "Count", and a
single timestamp sampled once for the whole conversion (`now`,
standing for the one `time.Now()` call). -/
def ClusterResources.ToMetricData (cr : ClusterResources) (now : Nat) : List MetricDatum :=
  (cr.Resources.map (fun metricResources =>
    metricResources.2.map (fun entry =>
      { MetricName := metricResources.1,
        Dimensions := [{ Name := "ClusterName", Value := cr.Cluster },
                       { Name := "InstanceType", Value := entry.1 }],
        Timestamp := now,
        Value := entry.2,
        Unit := "Count" }))).flatten

/-- Provider environment for one measurement pass: results of each ECS call.
`none` models a call that returns an error (which the code logs before
substituting an empty result), and `now` models the clock read by
`time.Now()`. -/
structure ECSEnv where
  taskPages : String → List (List String)
  describeTasksResult : String → List String → Option (List Task)
  listContainerInstancesResult : String → Option (List String)
  describeContainerInstancesResult : String → List String → Option (List ContainerInstance)
  now : Nat

/-- Events recorded while a measurement pass runs: the ECS operations it
performs, and each invocation of `ContainersPossible` with its footprint
arguments. -/
inductive CallEvent where
  | listTasksPages (cluster : String)
  | describeTasks (cluster : String) (tasks : List String)
  | listContainerInstances (cluster : String)
  | describeContainerInstances (cluster : String) (instances : List String)
  | containersPossible (cpu memory : Int)
deriving DecidableEq, Repr

/-- Whether an event is a container-instance operation (listing or describing
container instances). -/
def CallEvent.isContainerInstanceOp : CallEvent → Bool
  | .listContainerInstances _ => true
  | .describeContainerInstances _ _ => true
  | _ => false

/-- Pages delivered by an AWS SDK `...Pages` call whose callback returns
`len(page) > 0`: every page is sent on the channel, and pagination stops after
the first empty page (DiscoverTasks and DiscoverClusters both use this
callback shape). -/
def pagesEmitted : List (List String) → List (List String)
  | [] => []
  | p :: ps => if p.length > 0 then p :: pagesEmitted ps else [p]

/-- DiscoverTasks (collector.go): the list of task-ARN pages the channel
delivers for a cluster. -/
def DiscoverTasks (env : ECSEnv) (cluster : String) : List (List String) :=
  pagesEmitted (env.taskPages cluster)

/-- The task list a DescribeTasks call yields for one page: empty on error
(MeasureResources returns the zero maxima in that case, which coincides with
folding over no tasks). -/
def describedPage (env : ECSEnv) (cluster : String) (tasks : List String) : List Task :=
  match env.describeTasksResult cluster tasks with
  | none => []
  | some ts => ts

/-- The Go running-maximum update `if v > acc { acc = v }`. -/
def maxGo (acc v : Int) : Int :=
  if v > acc then v else acc

/-- MeasureResources (collector.go), value part: fold the per-task running
maxima of the parsed CPU and memory over one described page, starting from
zero. -/
def MeasureResourcesVal (env : ECSEnv) (cluster : String) (tasks : List String) : Int × Int :=
  (describedPage env cluster tasks).foldl
    (fun acc task => (maxGo acc.1 (goAtoi task.Cpu), maxGo acc.2 (goAtoi task.Memory)))
    (0, 0)

/-- Task-footprint phase of MeasureCluster (collector.go): running per-field
maxima of the page-wise MeasureResources results. -/
def taskFootprintVal (env : ECSEnv) (cluster : String) : Int × Int :=
  (DiscoverTasks env cluster).foldl
    (fun acc page =>
      let r := MeasureResourcesVal env cluster page
      (maxGo acc.1 r.1, maxGo acc.2 r.2))
    (0, 0)

/-- Trace of the task-footprint phase: one DescribeTasks call per delivered
page. -/
def taskFootprintTrace (env : ECSEnv) (cluster : String) : List CallEvent :=
  (DiscoverTasks env cluster).map (fun page => CallEvent.describeTasks cluster page)

/-- ListContainerInstances (collector.go): ACTIVE container-instance ARNs,
empty on error, plus the call event. -/
def ListContainerInstancesOp (env : ECSEnv) (cluster : String) :
    List String × List CallEvent :=
  (match env.listContainerInstancesResult cluster with
   | none => []
   | some arns => arns,
   [CallEvent.listContainerInstances cluster])

/-- DescribeContainerInstances (collector.go): container-instance
descriptions, empty on error, plus the call event. -/
def DescribeContainerInstancesOp (env : ECSEnv) (cluster : String) (instances : List String) :
    List ContainerInstance × List CallEvent :=
  (match env.describeContainerInstancesResult cluster instances with
   | none => []
   | some cis => cis,
   [CallEvent.describeContainerInstances cluster instances])

/-- The ledger built by DescribeResourcesByInstanceType's loop (collector.go):
for each described instance, record its type's footprint and add the two
ContainersPossible counts. -/
def capacityLedger (cluster : String) (cpu memory : Int)
    (cis : List ContainerInstance) : ClusterResources :=
  cis.foldl
    (fun cr ci =>
      cr.record (getInstanceType ci.Attributes) cpu memory
        (ContainersPossible cpu memory ci.RegisteredResources)
        (ContainersPossible cpu memory ci.RemainingResources))
    (NewClusterResources cluster)

/-- Trace of the capacity loop: two ContainersPossible invocations per
instance (registered, then remaining), both with the phase-1 footprint. -/
def capacityTrace (cpu memory : Int) (cis : List ContainerInstance) : List CallEvent :=
  cis.flatMap (fun _ =>
    [CallEvent.containersPossible cpu memory, CallEvent.containersPossible cpu memory])

/-- DescribeResourcesByInstanceType (collector.go): describe the instances,
build the ledger, and convert it to metric data (sampling the clock once). -/
def DescribeResourcesByInstanceType (env : ECSEnv) (cluster : String)
    (instances : List String) (cpu memory : Int) : List MetricDatum × List CallEvent :=
  let dci := DescribeContainerInstancesOp env cluster instances
  ((capacityLedger cluster cpu memory dci.1).ToMetricData env.now,
   dci.2 ++ capacityTrace cpu memory dci.1)

/-- MeasureCluster (collector.go): run the task-footprint phase; if either
maximum is zero, skip the cluster with no metric data; otherwise list and
describe container instances and emit the ledger's metric data. -/
def MeasureCluster (env : ECSEnv) (cluster : String) : List MetricDatum × List CallEvent :=
  let fp := taskFootprintVal env cluster
  let tr1 := CallEvent.listTasksPages cluster :: taskFootprintTrace env cluster
  if fp.1 = 0 ∨ fp.2 = 0 then ([], tr1)
  else
    let li := ListContainerInstancesOp env cluster
    let dr := DescribeResourcesByInstanceType env cluster li.1 fp.1 fp.2
    (dr.1, tr1 ++ li.2 ++ dr.2)

/-- CloudWatch side of Publish: whether a batch passes `input.Validate()` and
whether `PutMetricData` succeeds for it. -/
structure CloudWatchEnv where
  validateOK : List MetricDatum → Bool
  putOK : List MetricDatum → Bool

/-- Per-batch outcome of one Publish loop iteration. -/
inductive BatchOutcome where
  | invalid
  | putFailed
  | published
deriving DecidableEq, Repr

/-- The outcome Publish's loop body produces for one batch: validate first,
then submit; both failures are logged and skipped. -/
def batchOutcome (cw : CloudWatchEnv) (batch : List MetricDatum) : BatchOutcome :=
  if cw.validateOK batch then
    (if cw.putOK batch then BatchOutcome.published else BatchOutcome.putFailed)
  else BatchOutcome.invalid

/-- Publish's batching loop (collector.go): `for i := 0; i < len; i += 20`
with the slice `metricData[i:min(i+20, len)]`, rendered as successive
take/drop.  The fuel argument is the list length, enough for every iteration
since each one consumes at least one element. -/
def publishLoop (cw : CloudWatchEnv) : Nat → List MetricDatum →
    List (List MetricDatum × BatchOutcome)
  | 0, _ => []
  | fuel + 1, l =>
    if l.isEmpty then []
    else (l.take 20, batchOutcome cw (l.take 20)) :: publishLoop cw fuel (l.drop 20)

/-- Publish (collector.go): the sequence of batches it attempts, each with its
outcome. -/
def Publish (cw : CloudWatchEnv) (metricData : List MetricDatum) :
    List (List MetricDatum × BatchOutcome) :=
  publishLoop cw metricData.length metricData

/-- The batch sequence alone, independent of the CloudWatch responses. -/
def publishBatches : Nat → List MetricDatum → List (List MetricDatum)
  | 0, _ => []
  | fuel + 1, l =>
    if l.isEmpty then []
    else l.take 20 :: publishBatches fuel (l.drop 20)

/-- First occurrence split of Go `strings.Split`'s separator search: the text
before the first occurrence of `sep` and the text after it, or `none` when
`sep` does not occur. -/
def findSplit (sep : List Char) : List Char → Option (List Char × List Char)
  | [] => none
  | c :: cs =>
    if sep.isPrefixOf (c :: cs) then some ([], (c :: cs).drop sep.length)
    else
      match findSplit sep cs with
      | none => none
      | some pq => some (c :: pq.1, pq.2)

/-- Iterated splitting, with fuel (the input length suffices: each found
separator consumes at least one character). -/
def goSplitAux (sep : List Char) : Nat → List Char → List (List Char)
  | 0, s => [s]
  | fuel + 1, s =>
    match findSplit sep s with
    | none => [s]
    | some pq => pq.1 :: goSplitAux sep fuel pq.2

/-- Go `strings.Split` for a nonempty separator: pieces between consecutive
non-overlapping occurrences, scanned left to right. -/
def goSplit (sep s : List Char) : List (List Char) :=
  goSplitAux sep (s.length + 1) s

/-- Cluster-name derivation in DiscoverClusters (collector.go):
`strings.Split(arn, ":cluster/")[1]`.  `none` models the index-out-of-range
panic when the separator is absent. -/
def deriveClusterName (arn : String) : Option String :=
  ((goSplit ":cluster/".data arn.data).get? 1).map (fun cs => String.mk cs)

/-- DiscoverClusters (collector.go): one derived name per cluster ARN
received, over the pages the pager delivers. -/
def DiscoverClusters (clusterPages : List (List String)) : List (Option String) :=
  (pagesEmitted clusterPages).flatten.map deriveClusterName

/-- Modelled from the spec: the capacity a resource vector offers for one
named resource, as the spec words it — the sum, over all entries carrying
that name, of the entry's value integer-divided by the per-container unit. -/
def specResourceCapacity (name : String) (unit : Int) (resources : List Resource) : Int :=
  ((resources.filter (fun r => r.Name = name)).map
    (fun r => Int.tdiv r.IntegerValue unit)).sum

theorem containersPossible_foldl_eq (cpu memory : Int) (resources : List Resource) :
    ∀ a b : Int,
      resources.foldl
        (fun (acc : Int × Int) resource =>
          if resource.Name = "CPU" then (acc.1 + Int.tdiv resource.IntegerValue cpu, acc.2)
          else if resource.Name = "MEMORY" then
            (acc.1, acc.2 + Int.tdiv resource.IntegerValue memory)
          else acc)
        (a, b) =
      (a + specResourceCapacity "CPU" cpu resources,
       b + specResourceCapacity "MEMORY" memory resources) := by
  induction resources with
  | nil => intro a b; simp [specResourceCapacity]
  | cons r rs ih =>
    intro a b
    by_cases h1 : r.Name = "CPU"
    · simp [specResourceCapacity, h1, ih, add_assoc]
    · by_cases h2 : r.Name = "MEMORY" <;>
        simp [specResourceCapacity, h1, h2, ih, add_assoc]

/-- C1: ContainersPossible equals the minimum of the summed CPU capacity and
the summed memory capacity (integer division per entry, summed across
duplicate entries, other names ignored); concretely, footprint (1024, 2048)
with CPU=8192, MEMORY=8192 gives 4, footprint (1024, 2048) with CPU=0,
MEMORY=8192 gives 0, and footprint (1024, 1024) with CPU=3072, MEMORY=8192
gives 3. -/
theorem containersPossible_min_of_sums :
    (∀ (cpu memory : Int) (resources : List Resource),
      ContainersPossible cpu memory resources =
        min (specResourceCapacity "CPU" cpu resources)
            (specResourceCapacity "MEMORY" memory resources))
    ∧ ContainersPossible 1024 2048 [⟨"CPU", 8192⟩, ⟨"MEMORY", 8192⟩] = 4
    ∧ ContainersPossible 1024 2048 [⟨"CPU", 0⟩, ⟨"MEMORY", 8192⟩] = 0
    ∧ ContainersPossible 1024 1024 [⟨"CPU", 3072⟩, ⟨"MEMORY", 8192⟩] = 3 := by
  refine ⟨fun cpu memory resources => ?_, by decide, by decide, by decide⟩
  have h := containersPossible_foldl_eq cpu memory resources 0 0
  simp only [ContainersPossible, h, zero_add]
  split <;> omega

/-- All tasks a cluster's task-footprint phase describes: the concatenation of
the per-page DescribeTasks results over the pages the task pager delivers
(an errored page contributes no tasks). -/
def describedTasks (env : ECSEnv) (cluster : String) : List Task :=
  ((DiscoverTasks env cluster).map (describedPage env cluster)).flatten

/-- Modelled from the spec: the "maximum value seen" over a list of
contributions, starting from zero (a cluster with no contributions has
maximum zero). -/
def listMax (l : List Int) : Int :=
  l.foldl max 0

/-- Modelled from the spec: the contribution C2 assigns to a task field — the
parsed value when the string parses successfully as a 64-bit integer, and 0
whenever parsing fails (including out-of-range numerals). -/
def atoiClaimed (s : String) : Int :=
  match s.data with
  | [] => 0
  | c :: cs =>
    let neg : Bool := c = '-'
    let ds : List Char := if c = '-' ∨ c = '+' then cs else c :: cs
    if ds.isEmpty || ds.any (fun d => !d.isDigit) then 0
    else
      let v : Int := if neg then -(goAtoiDigits ds : Int) else (goAtoiDigits ds : Int)
      if -(2 ^ 63) ≤ v ∧ v ≤ 2 ^ 63 - 1 then v else 0

theorem maxGo_eq_max (a v : Int) : maxGo a v = max a v := by
  unfold maxGo; split <;> omega

theorem foldl_maxGo_pair (f g : Task → Int) :
    ∀ (ts : List Task) (a b : Int),
      ts.foldl (fun acc t => (maxGo acc.1 (f t), maxGo acc.2 (g t))) (a, b) =
        (ts.foldl (fun x t => max x (f t)) a, ts.foldl (fun x t => max x (g t)) b) := by
  intro ts
  induction ts with
  | nil => intro a b; rfl
  | cons t ts ih =>
    intro a b
    simp only [List.foldl_cons]
    rw [ih]
    simp only [maxGo_eq_max]

theorem foldl_max_seed (f : Task → Int) :
    ∀ (l : List Task) (a b : Int),
      l.foldl (fun x t => max x (f t)) (max a b) =
        max a (l.foldl (fun x t => max x (f t)) b) := by
  intro l
  induction l with
  | nil => intro a b; rfl
  | cons t ts ih =>
    intro a b
    simp only [List.foldl_cons, max_assoc, ih]

theorem foldl_max_nonneg (f : Task → Int) :
    ∀ (l : List Task) (a : Int), 0 ≤ a → 0 ≤ l.foldl (fun x t => max x (f t)) a := by
  intro l
  induction l with
  | nil => intro a ha; exact ha
  | cons t ts ih =>
    intro a ha
    exact ih _ (le_trans ha (le_max_left _ _))

theorem taskFootprint_loop_eq (env : ECSEnv) (cluster : String) :
    ∀ (pages : List (List String)) (a b : Int), 0 ≤ a → 0 ≤ b →
      pages.foldl
        (fun acc page =>
          let r := MeasureResourcesVal env cluster page
          (maxGo acc.1 r.1, maxGo acc.2 r.2))
        (a, b) =
      (((pages.map (describedPage env cluster)).flatten).foldl
          (fun x t => max x (goAtoi t.Cpu)) a,
       ((pages.map (describedPage env cluster)).flatten).foldl
          (fun x t => max x (goAtoi t.Memory)) b) := by
  intro pages
  induction pages with
  | nil => intro a b _ _; rfl
  | cons pg ps ih =>
    intro a b ha hb
    have hmr : MeasureResourcesVal env cluster pg =
        ((describedPage env cluster pg).foldl (fun x t => max x (goAtoi t.Cpu)) 0,
         (describedPage env cluster pg).foldl (fun x t => max x (goAtoi t.Memory)) 0) := by
      unfold MeasureResourcesVal
      exact foldl_maxGo_pair _ _ _ 0 0
    have habs : ∀ (c : Int) (l : List Task) (h : Task → Int), 0 ≤ c →
        max c (l.foldl (fun x t => max x (h t)) 0) = l.foldl (fun x t => max x (h t)) c := by
      intro c l h hc
      have := foldl_max_seed h l c 0
      rw [max_eq_left hc] at this
      exact this.symm
    have h1 : (maxGo a (MeasureResourcesVal env cluster pg).1,
               maxGo b (MeasureResourcesVal env cluster pg).2) =
              ((describedPage env cluster pg).foldl (fun x t => max x (goAtoi t.Cpu)) a,
               (describedPage env cluster pg).foldl (fun x t => max x (goAtoi t.Memory)) b) := by
      simp only [hmr, maxGo_eq_max]
      rw [habs a _ _ ha, habs b _ _ hb]
    simp only [List.foldl_cons]
    rw [h1, ih _ _ (foldl_max_nonneg _ _ _ ha) (foldl_max_nonneg _ _ _ hb)]
    simp only [List.map_cons, List.flatten_cons, List.foldl_append]

/-- Environment realizing the spec's footprint example: one page of three
tasks with CPU strings "2560", "1024", "invalidCPU" and memory strings
"1440", "3072", "invalidMemory". -/
def envFootprintExample : ECSEnv :=
  { taskPages := fun _ => [["task-1", "task-2", "task-3"]],
    describeTasksResult := fun _ _ =>
      some [⟨"2560", "1440"⟩, ⟨"1024", "3072"⟩, ⟨"invalidCPU", "invalidMemory"⟩],
    listContainerInstancesResult := fun _ => none,
    describeContainerInstancesResult := fun _ _ => none,
    now := 0 }

/-- Environment exhibiting C2's divergence: a single task whose CPU string is
a well-formed numeral exceeding the signed 64-bit range. -/
def envRangeExample : ECSEnv :=
  { taskPages := fun _ => [["task-1"]],
    describeTasksResult := fun _ _ => some [⟨"99999999999999999999", "100"⟩],
    listContainerInstancesResult := fun _ => none,
    describeContainerInstancesResult := fun _ _ => none,
    now := 0 }

/-- C2 counterexample: with a task whose CPU string is the out-of-range
numeral "99999999999999999999" (and memory "100"), the footprint the code
computes is (9223372036854775807, 100) — the failed parse contributes the
clamped int64 maximum, not 0 — so the footprint differs from the per-field
maxima in which every failed parse contributes 0. -/
theorem taskFootprint_range_counterexample :
    taskFootprintVal envRangeExample "fake-ecs-cluster" ≠
      (listMax ((describedTasks envRangeExample "fake-ecs-cluster").map
          (fun t => atoiClaimed t.Cpu)),
       listMax ((describedTasks envRangeExample "fake-ecs-cluster").map
          (fun t => atoiClaimed t.Memory)))
    ∧ taskFootprintVal envRangeExample "fake-ecs-cluster" = (9223372036854775807, 100)
    ∧ atoiClaimed "99999999999999999999" = 0
    ∧ atoiWellFormed "99999999999999999999" = true := by
  exact ⟨by decide, by decide, by decide, by decide⟩

/-- C2 (amended): the footprint is the pair of independent per-field maxima of
the values Go's Atoi returns for the described tasks' CPU and memory strings —
a syntactically invalid string contributes 0, while a well-formed numeral
outside the signed 64-bit range contributes the clamped int64 bound; the
spec's concrete example (CPU values 2560, 1024, "invalidCPU"; memory values
1440, 3072, "invalidMemory") yields footprint (2560, 3072). -/
theorem taskFootprint_independent_maxima :
    (∀ (env : ECSEnv) (cluster : String),
      taskFootprintVal env cluster =
        (listMax ((describedTasks env cluster).map (fun t => goAtoi t.Cpu)),
         listMax ((describedTasks env cluster).map (fun t => goAtoi t.Memory))))
    ∧ (∀ s : String, atoiWellFormed s = false → goAtoi s = 0)
    ∧ taskFootprintVal envFootprintExample "fake-ecs-cluster" = (2560, 3072) := by
  refine ⟨fun env cluster => ?_, fun s h => ?_, by decide⟩
  · unfold taskFootprintVal listMax describedTasks
    rw [taskFootprint_loop_eq env cluster (DiscoverTasks env cluster) 0 0 le_rfl le_rfl]
    rw [List.foldl_map, List.foldl_map]
  · unfold goAtoi
    unfold atoiWellFormed at h
    cases hd : s.data with
    | nil => simp
    | cons c cs =>
      rw [hd] at h
      simp only [Bool.not_eq_false'] at h
      simp only [h, if_true]

theorem taskFootprint_independent_maxima_witness :
    atoiWellFormed "invalidCPU" = false ∧ goAtoi "invalidCPU" = 0 :=
  ⟨by decide, taskFootprint_independent_maxima.2.1 "invalidCPU" (by decide)⟩

theorem toMetricData_timestamp_mem (cr : ClusterResources) (now : Nat) (d : MetricDatum)
    (hd : d ∈ cr.ToMetricData now) : d.Timestamp = now := by
  unfold ClusterResources.ToMetricData at hd
  rw [List.mem_flatten] at hd
  obtain ⟨s, hs, hds⟩ := hd
  rw [List.mem_map] at hs
  obtain ⟨mr, hmr, rfl⟩ := hs
  rw [List.mem_map] at hds
  obtain ⟨e, he, rfl⟩ := hds
  rfl

/-- C3: recording one instance type (cpu=1024, mem=2048, registered=13,
remaining=3) in a fresh ledger and converting yields exactly the 4 points —
one per category name, each with the cluster-name and instance-type
dimensions, unit "Count", values 1024/2048/13/3, and a timestamp not earlier
than any time observed before the conversion; recording a second, distinct
instance type instead yields 8 points (4 categories × 2 types) with each
type's counts unaffected by the other's. -/
theorem ledger_roundtrip :
    ∀ (cluster ty ty₂ : String) (t0 now : Nat), t0 ≤ now → ty ≠ ty₂ →
      (((NewClusterResources cluster).record ty 1024 2048 13 3).ToMetricData now =
        [{ MetricName := "LowestCommonMultipleCPU",
           Dimensions := [{ Name := "ClusterName", Value := cluster },
                          { Name := "InstanceType", Value := ty }],
           Timestamp := now, Value := 1024, Unit := "Count" },
         { MetricName := "LowestCommonMultipleMemory",
           Dimensions := [{ Name := "ClusterName", Value := cluster },
                          { Name := "InstanceType", Value := ty }],
           Timestamp := now, Value := 2048, Unit := "Count" },
         { MetricName := "RegisteredSchedulable",
           Dimensions := [{ Name := "ClusterName", Value := cluster },
                          { Name := "InstanceType", Value := ty }],
           Timestamp := now, Value := 13, Unit := "Count" },
         { MetricName := "RemainingSchedulable",
           Dimensions := [{ Name := "ClusterName", Value := cluster },
                          { Name := "InstanceType", Value := ty }],
           Timestamp := now, Value := 3, Unit := "Count" }]
       ∧ (((NewClusterResources cluster).record ty 1024 2048 13 3).ToMetricData now).length = 4
       ∧ (∀ d ∈ ((NewClusterResources cluster).record ty 1024 2048 13 3).ToMetricData now,
            t0 ≤ d.Timestamp))
      ∧ ((((NewClusterResources cluster).record ty 1024 2048 13 3).record
            ty₂ 4096 8192 7 2).ToMetricData now).length = 8
      ∧ (((NewClusterResources cluster).record ty 1024 2048 13 3).record
            ty₂ 4096 8192 7 2).ToMetricData now =
        [{ MetricName := "LowestCommonMultipleCPU",
           Dimensions := [{ Name := "ClusterName", Value := cluster },
                          { Name := "InstanceType", Value := ty }],
           Timestamp := now, Value := 1024, Unit := "Count" },
         { MetricName := "LowestCommonMultipleCPU",
           Dimensions := [{ Name := "ClusterName", Value := cluster },
                          { Name := "InstanceType", Value := ty₂ }],
           Timestamp := now, Value := 4096, Unit := "Count" },
         { MetricName := "LowestCommonMultipleMemory",
           Dimensions := [{ Name := "ClusterName", Value := cluster },
                          { Name := "InstanceType", Value := ty }],
           Timestamp := now, Value := 2048, Unit := "Count" },
         { MetricName := "LowestCommonMultipleMemory",
           Dimensions := [{ Name := "ClusterName", Value := cluster },
                          { Name := "InstanceType", Value := ty₂ }],
           Timestamp := now, Value := 8192, Unit := "Count" },
         { MetricName := "RegisteredSchedulable",
           Dimensions := [{ Name := "ClusterName", Value := cluster },
                          { Name := "InstanceType", Value := ty }],
           Timestamp := now, Value := 13, Unit := "Count" },
         { MetricName := "RegisteredSchedulable",
           Dimensions := [{ Name := "ClusterName", Value := cluster },
                          { Name := "InstanceType", Value := ty₂ }],
           Timestamp := now, Value := 7, Unit := "Count" },
         { MetricName := "RemainingSchedulable",
           Dimensions := [{ Name := "ClusterName", Value := cluster },
                          { Name := "InstanceType", Value := ty }],
           Timestamp := now, Value := 3, Unit := "Count" },
         { MetricName := "RemainingSchedulable",
           Dimensions := [{ Name := "ClusterName", Value := cluster },
                          { Name := "InstanceType", Value := ty₂ }],
           Timestamp := now, Value := 2, Unit := "Count" }] := by
  intro cluster ty ty₂ t0 now h hne
  have e2 : (((NewClusterResources cluster).record ty 1024 2048 13 3).record
      ty₂ 4096 8192 7 2).ToMetricData now =
      [{ MetricName := "LowestCommonMultipleCPU",
         Dimensions := [{ Name := "ClusterName", Value := cluster },
                        { Name := "InstanceType", Value := ty }],
         Timestamp := now, Value := 1024, Unit := "Count" },
       { MetricName := "LowestCommonMultipleCPU",
         Dimensions := [{ Name := "ClusterName", Value := cluster },
                        { Name := "InstanceType", Value := ty₂ }],
         Timestamp := now, Value := 4096, Unit := "Count" },
       { MetricName := "LowestCommonMultipleMemory",
         Dimensions := [{ Name := "ClusterName", Value := cluster },
                        { Name := "InstanceType", Value := ty }],
         Timestamp := now, Value := 2048, Unit := "Count" },
       { MetricName := "LowestCommonMultipleMemory",
         Dimensions := [{ Name := "ClusterName", Value := cluster },
                        { Name := "InstanceType", Value := ty₂ }],
         Timestamp := now, Value := 8192, Unit := "Count" },
       { MetricName := "RegisteredSchedulable",
         Dimensions := [{ Name := "ClusterName", Value := cluster },
                        { Name := "InstanceType", Value := ty }],
         Timestamp := now, Value := 13, Unit := "Count" },
       { MetricName := "RegisteredSchedulable",
         Dimensions := [{ Name := "ClusterName", Value := cluster },
                        { Name := "InstanceType", Value := ty₂ }],
         Timestamp := now, Value := 7, Unit := "Count" },
       { MetricName := "RemainingSchedulable",
         Dimensions := [{ Name := "ClusterName", Value := cluster },
                        { Name := "InstanceType", Value := ty }],
         Timestamp := now, Value := 3, Unit := "Count" },
       { MetricName := "RemainingSchedulable",
         Dimensions := [{ Name := "ClusterName", Value := cluster },
                        { Name := "InstanceType", Value := ty₂ }],
         Timestamp := now, Value := 2, Unit := "Count" }] := by
    unfold NewClusterResources ClusterResources.record ClusterResources.ToMetricData
      ClusterResources.Resources
    simp [goMapSet, goMapGet, hne]
  refine ⟨⟨rfl, rfl, ?_⟩, ?_, e2⟩
  · intro d hd
    rw [toMetricData_timestamp_mem _ _ _ hd]
    exact h
  · rw [e2]
    rfl

theorem ledger_roundtrip_witness :
    (0 : Nat) ≤ 0 ∧ "m5.large" ≠ "c5.xlarge" ∧
      (((NewClusterResources "my-shiny-cluster").record "m5.large" 1024 2048 13 3).ToMetricData
        0).length = 4 :=
  ⟨le_rfl, by decide,
    (ledger_roundtrip "my-shiny-cluster" "m5.large" "c5.xlarge" 0 0 le_rfl
      (by decide)).1.2.1⟩

/-- C10: the conversion samples the clock once, so every metric point produced
by a single ToMetricData call carries the same timestamp: each point's
timestamp equals the sampled time, and any two points in the list agree. -/
theorem toMetricData_single_timestamp :
    ∀ (cr : ClusterResources) (now : Nat),
      (∀ d ∈ cr.ToMetricData now, d.Timestamp = now)
      ∧ ∀ d₁ ∈ cr.ToMetricData now, ∀ d₂ ∈ cr.ToMetricData now,
          d₁.Timestamp = d₂.Timestamp := by
  intro cr now
  have h : ∀ d ∈ cr.ToMetricData now, d.Timestamp = now :=
    fun d hd => toMetricData_timestamp_mem cr now d hd
  exact ⟨h, fun d₁ h₁ d₂ h₂ => (h d₁ h₁).trans (h d₂ h₂).symm⟩

theorem toMetricData_single_timestamp_witness :
    ({ MetricName := "LowestCommonMultipleCPU",
       Dimensions := [{ Name := "ClusterName", Value := "c" },
                      { Name := "InstanceType", Value := "t" }],
       Timestamp := 7, Value := 1, Unit := "Count" } : MetricDatum) ∈
      ((NewClusterResources "c").record "t" 1 2 3 4).ToMetricData 7
    ∧ ({ MetricName := "LowestCommonMultipleCPU",
         Dimensions := [{ Name := "ClusterName", Value := "c" },
                        { Name := "InstanceType", Value := "t" }],
         Timestamp := 7, Value := 1, Unit := "Count" } : MetricDatum).Timestamp = 7 :=
  ⟨by decide,
    (toMetricData_single_timestamp ((NewClusterResources "c").record "t" 1 2 3 4) 7).1 _
      (by decide)⟩

/-- Key list left by a Go map write: unchanged when the key was present,
extended by the key otherwise. -/
def keyInsert : List String → String → List String
  | [], k => [k]
  | a :: rest, k => if a = k then a :: rest else a :: keyInsert rest k

theorem goMapKeys_set (m : List (String × Int)) (k : String) (v : Int) :
    goMapKeys (goMapSet m k v) = keyInsert (goMapKeys m) k := by
  induction m with
  | nil => rfl
  | cons e rest ih =>
    obtain ⟨k', v'⟩ := e
    by_cases hk : k' = k
    · simp [goMapSet, goMapKeys, keyInsert, hk]
    · simp only [goMapSet, hk, if_false, goMapKeys, List.map_cons, keyInsert]
      have h2 : goMapKeys (goMapSet rest k v) = keyInsert (goMapKeys rest) k := ih
      unfold goMapKeys at h2
      rw [h2]

theorem capacityFold_keys (cpu memory : Int) :
    ∀ (cis : List ContainerInstance) (cr : ClusterResources),
      goMapKeys cr.CPU = goMapKeys cr.Memory →
      goMapKeys cr.CPU = goMapKeys cr.Registered →
      goMapKeys cr.CPU = goMapKeys cr.Remaining →
      (let out := cis.foldl
        (fun cr ci =>
          cr.record (getInstanceType ci.Attributes) cpu memory
            (ContainersPossible cpu memory ci.RegisteredResources)
            (ContainersPossible cpu memory ci.RemainingResources))
        cr
       goMapKeys out.CPU = goMapKeys out.Memory ∧
       goMapKeys out.CPU = goMapKeys out.Registered ∧
       goMapKeys out.CPU = goMapKeys out.Remaining) := by
  intro cis
  induction cis with
  | nil => intro cr h1 h2 h3; exact ⟨h1, h2, h3⟩
  | cons ci rest ih =>
    intro cr h1 h2 h3
    exact ih _ (by simp [ClusterResources.record, goMapKeys_set, h1])
      (by simp [ClusterResources.record, goMapKeys_set, h2])
      (by simp [ClusterResources.record, goMapKeys_set, h3])

/-- C8: after the capacity phase processes any sequence of container
instances, an instance-type label appearing as a key in any of the four
ledger mappings appears as a key in all four. -/
theorem ledger_keys_complete :
    ∀ (cluster : String) (cpu memory : Int) (cis : List ContainerInstance) (k : String),
      (k ∈ goMapKeys (capacityLedger cluster cpu memory cis).CPU
       ∨ k ∈ goMapKeys (capacityLedger cluster cpu memory cis).Memory
       ∨ k ∈ goMapKeys (capacityLedger cluster cpu memory cis).Registered
       ∨ k ∈ goMapKeys (capacityLedger cluster cpu memory cis).Remaining) →
      (k ∈ goMapKeys (capacityLedger cluster cpu memory cis).CPU
       ∧ k ∈ goMapKeys (capacityLedger cluster cpu memory cis).Memory
       ∧ k ∈ goMapKeys (capacityLedger cluster cpu memory cis).Registered
       ∧ k ∈ goMapKeys (capacityLedger cluster cpu memory cis).Remaining) := by
  intro cluster cpu memory cis k hk
  have h := capacityFold_keys cpu memory cis (NewClusterResources cluster) rfl rfl rfl
  unfold capacityLedger
  unfold capacityLedger at hk
  obtain ⟨h1, h2, h3⟩ := h
  rw [← h1, ← h2, ← h3] at hk ⊢
  rcases hk with hk | hk | hk | hk <;> exact ⟨hk, hk, hk, hk⟩

/-- Container instance shaped like the repository's test fixture. -/
def ciExample : ContainerInstance :=
  { Attributes := [{ Name := "ecs.instance-type", Value := "fake.2xlarge" }],
    RegisteredResources := [⟨"CPU", 8192⟩, ⟨"MEMORY", 15468⟩],
    RemainingResources := [⟨"CPU", 5632⟩, ⟨"MEMORY", 12396⟩] }

theorem ledger_keys_complete_witness :
    "fake.2xlarge" ∈ goMapKeys (capacityLedger "c" 2560 3072 [ciExample]).CPU ∧
      ("fake.2xlarge" ∈ goMapKeys (capacityLedger "c" 2560 3072 [ciExample]).CPU
       ∧ "fake.2xlarge" ∈ goMapKeys (capacityLedger "c" 2560 3072 [ciExample]).Memory
       ∧ "fake.2xlarge" ∈ goMapKeys (capacityLedger "c" 2560 3072 [ciExample]).Registered
       ∧ "fake.2xlarge" ∈ goMapKeys (capacityLedger "c" 2560 3072 [ciExample]).Remaining) :=
  ⟨by decide,
    ledger_keys_complete "c" 2560 3072 [ciExample] "fake.2xlarge" (Or.inl (by decide))⟩

/-- C4: a cluster whose task-footprint phase ends with either running maximum
zero yields no metric data and triggers no container-instance operation
(neither listing nor describing container instances appears in the pass's
trace). -/
theorem measureCluster_empty_skip :
    ∀ (env : ECSEnv) (cluster : String),
      ((taskFootprintVal env cluster).1 = 0 ∨ (taskFootprintVal env cluster).2 = 0) →
      (MeasureCluster env cluster).1 = []
      ∧ ∀ e ∈ (MeasureCluster env cluster).2, e.isContainerInstanceOp = false := by
  intro env cluster h
  unfold MeasureCluster
  rw [if_pos h]
  refine ⟨rfl, ?_⟩
  intro e he
  rcases List.mem_cons.mp he with rfl | hmap
  · rfl
  · unfold taskFootprintTrace at hmap
    obtain ⟨page, _, rfl⟩ := List.mem_map.mp hmap
    rfl

/-- Environment with no tasks at all: the task pager delivers no pages. -/
def envEmpty : ECSEnv :=
  { taskPages := fun _ => [],
    describeTasksResult := fun _ _ => none,
    listContainerInstancesResult := fun _ => some ["instance-1"],
    describeContainerInstancesResult := fun _ _ => some [ciExample],
    now := 0 }

theorem measureCluster_empty_skip_witness :
    (taskFootprintVal envEmpty "no-task-cluster").1 = 0
    ∧ (MeasureCluster envEmpty "no-task-cluster").1 = [] :=
  ⟨by decide,
    (measureCluster_empty_skip envEmpty "no-task-cluster" (Or.inl (by decide))).1⟩

theorem taskFootprintVal_nonneg (env : ECSEnv) (cluster : String) :
    0 ≤ (taskFootprintVal env cluster).1 ∧ 0 ≤ (taskFootprintVal env cluster).2 := by
  unfold taskFootprintVal
  rw [taskFootprint_loop_eq env cluster (DiscoverTasks env cluster) 0 0 le_rfl le_rfl]
  exact ⟨foldl_max_nonneg _ _ _ le_rfl, foldl_max_nonneg _ _ _ le_rfl⟩

/-- C6: along every path of a measurement pass, ContainersPossible is invoked
only with strictly positive unit CPU and unit memory — the skip of clusters
whose footprint has a zero component makes the zero-divisor case
unreachable. -/
theorem containersPossible_args_positive :
    ∀ (env : ECSEnv) (cluster : String) (c m : Int),
      CallEvent.containersPossible c m ∈ (MeasureCluster env cluster).2 →
      0 < c ∧ 0 < m := by
  intro env cluster c m hmem
  simp only [MeasureCluster] at hmem
  by_cases hz : (taskFootprintVal env cluster).1 = 0 ∨ (taskFootprintVal env cluster).2 = 0
  case pos =>
    rw [if_pos hz] at hmem
    exfalso
    simp only [taskFootprintTrace, List.mem_cons, List.mem_map, reduceCtorEq,
      exists_false, or_self, false_and, and_false, exists_const, or_false,
      false_or] at hmem
  case neg =>
    rw [if_neg hz] at hmem
    push_neg at hz
    have hnn := taskFootprintVal_nonneg env cluster
    have hpos : 0 < (taskFootprintVal env cluster).1 ∧
        0 < (taskFootprintVal env cluster).2 :=
      ⟨lt_of_le_of_ne hnn.1 (Ne.symm hz.1), lt_of_le_of_ne hnn.2 (Ne.symm hz.2)⟩
    simp only [DescribeResourcesByInstanceType, DescribeContainerInstancesOp,
      ListContainerInstancesOp, capacityTrace, taskFootprintTrace, List.append_assoc,
      List.mem_append, List.mem_cons, List.mem_map, List.mem_flatMap,
      List.not_mem_nil, or_false, CallEvent.containersPossible.injEq,
      reduceCtorEq, false_or, exists_false, or_self] at hmem
    rcases hmem with ⟨_, _, hfalse⟩ | ⟨ci, _, h1, h2⟩
    · exact hfalse.elim
    · subst h1
      subst h2
      exact hpos

/-- Environment for a fully populated cluster: one page with one task of
footprint (1024, 2048), one active container instance shaped like the test
fixture. -/
def envFull : ECSEnv :=
  { taskPages := fun _ => [["task-1"]],
    describeTasksResult := fun _ _ => some [⟨"1024", "2048"⟩],
    listContainerInstancesResult := fun _ => some ["instance-1"],
    describeContainerInstancesResult := fun _ _ => some [ciExample],
    now := 5 }

theorem containersPossible_args_positive_witness :
    CallEvent.containersPossible 1024 2048 ∈ (MeasureCluster envFull "fake-ecs-cluster").2
    ∧ (0 : Int) < 1024 ∧ (0 : Int) < 2048 :=
  ⟨by decide,
    containersPossible_args_positive envFull "fake-ecs-cluster" 1024 2048 (by decide)⟩

theorem goMapValues_set_mem (m : List (String × Int)) (k : String) (v : Int) :
    ∀ x ∈ goMapValues (goMapSet m k v), x = v ∨ x ∈ goMapValues m := by
  induction m with
  | nil =>
    intro x hx
    simp only [goMapSet, goMapValues, List.map_cons, List.map_nil, List.mem_cons,
      List.not_mem_nil, or_false] at hx
    exact Or.inl hx
  | cons e rest ih =>
    obtain ⟨k', v'⟩ := e
    intro x hx
    by_cases hk : k' = k
    · simp only [goMapSet, hk, if_true, goMapValues, List.map_cons, List.mem_cons] at hx ⊢
      rcases hx with rfl | hx
      · exact Or.inl rfl
      · exact Or.inr (Or.inr hx)
    · simp only [goMapSet, hk, if_false, goMapValues, List.map_cons, List.mem_cons] at hx ⊢
      rcases hx with rfl | hx
      · exact Or.inr (Or.inl rfl)
      · rcases ih x hx with h | h
        · exact Or.inl h
        · exact Or.inr (Or.inr h)

theorem goMapGet_nonneg (m : List (String × Int)) (k : String)
    (h : ∀ x ∈ goMapValues m, 0 ≤ x) : 0 ≤ goMapGet m k := by
  induction m with
  | nil => exact le_rfl
  | cons e rest ih =>
    obtain ⟨k', v'⟩ := e
    by_cases hk : k' = k
    · simpa [goMapGet, hk] using h v' (by simp [goMapValues])
    · simp only [goMapGet, hk, if_false]
      exact ih (fun x hx => h x (by simp [goMapValues] at hx ⊢; exact Or.inr hx))

theorem containersPossible_nonneg (cpu memory : Int) (resources : List Resource)
    (hres : ∀ r ∈ resources, 0 ≤ r.IntegerValue) (hcpu : 0 ≤ cpu) (hmem : 0 ≤ memory) :
    0 ≤ ContainersPossible cpu memory resources := by
  have hs : ∀ (nm : String) (u : Int), 0 ≤ u →
      0 ≤ specResourceCapacity nm u resources := by
    intro nm u hu
    apply List.sum_nonneg
    intro x hx
    obtain ⟨r, hr, rfl⟩ := List.mem_map.mp hx
    exact Int.tdiv_nonneg (hres r (List.mem_of_mem_filter hr)) hu
  have h1 := hs "CPU" cpu hcpu
  have h2 := hs "MEMORY" memory hmem
  have e := containersPossible_foldl_eq cpu memory resources 0 0
  simp only [ContainersPossible, e, zero_add]
  split <;> omega

theorem capacityFold_values_nonneg (cpu memory : Int) (hcpu : 0 ≤ cpu) (hmem : 0 ≤ memory) :
    ∀ (cis : List ContainerInstance) (cr : ClusterResources),
      (∀ ci ∈ cis, (∀ r ∈ ci.RegisteredResources, 0 ≤ r.IntegerValue)
        ∧ (∀ r ∈ ci.RemainingResources, 0 ≤ r.IntegerValue)) →
      (∀ x ∈ goMapValues cr.CPU, 0 ≤ x) →
      (∀ x ∈ goMapValues cr.Memory, 0 ≤ x) →
      (∀ x ∈ goMapValues cr.Registered, 0 ≤ x) →
      (∀ x ∈ goMapValues cr.Remaining, 0 ≤ x) →
      (let out := cis.foldl
        (fun cr ci =>
          cr.record (getInstanceType ci.Attributes) cpu memory
            (ContainersPossible cpu memory ci.RegisteredResources)
            (ContainersPossible cpu memory ci.RemainingResources))
        cr
       (∀ x ∈ goMapValues out.CPU, 0 ≤ x) ∧
       (∀ x ∈ goMapValues out.Memory, 0 ≤ x) ∧
       (∀ x ∈ goMapValues out.Registered, 0 ≤ x) ∧
       (∀ x ∈ goMapValues out.Remaining, 0 ≤ x)) := by
  intro cis
  induction cis with
  | nil => intro cr _ h1 h2 h3 h4; exact ⟨h1, h2, h3, h4⟩
  | cons ci rest ih =>
    intro cr hcis h1 h2 h3 h4
    have hci := hcis ci (List.mem_cons_self ci rest)
    refine ih _ (fun c hc => hcis c (List.mem_cons_of_mem ci hc)) ?_ ?_ ?_ ?_
    · intro x hx
      rcases goMapValues_set_mem _ _ _ x hx with rfl | hx'
      · exact hcpu
      · exact h1 x hx'
    · intro x hx
      rcases goMapValues_set_mem _ _ _ x hx with rfl | hx'
      · exact hmem
      · exact h2 x hx'
    · intro x hx
      rcases goMapValues_set_mem _ _ _ x hx with rfl | hx'
      · exact add_nonneg (goMapGet_nonneg _ _ h3)
          (containersPossible_nonneg cpu memory _ hci.1 hcpu hmem)
      · exact h3 x hx'
    · intro x hx
      rcases goMapValues_set_mem _ _ _ x hx with rfl | hx'
      · exact add_nonneg (goMapGet_nonneg _ _ h4)
          (containersPossible_nonneg cpu memory _ hci.2 hcpu hmem)
      · exact h4 x hx'

theorem toMetricData_value_mem (cr : ClusterResources) (now : Nat) :
    ∀ d ∈ cr.ToMetricData now,
      d.Unit = "Count" ∧
      (d.Value ∈ goMapValues cr.CPU ∨ d.Value ∈ goMapValues cr.Memory ∨
       d.Value ∈ goMapValues cr.Registered ∨ d.Value ∈ goMapValues cr.Remaining) := by
  intro d hd
  unfold ClusterResources.ToMetricData at hd
  rw [List.mem_flatten] at hd
  obtain ⟨s, hs, hds⟩ := hd
  rw [List.mem_map] at hs
  obtain ⟨mr, hmr, rfl⟩ := hs
  rw [List.mem_map] at hds
  obtain ⟨e, he, rfl⟩ := hds
  have hval : ∀ (m : List (String × Int)), e ∈ m → e.2 ∈ goMapValues m := by
    intro m hm
    exact List.mem_map.mpr ⟨e, hm, rfl⟩
  unfold ClusterResources.Resources at hmr
  simp only [List.mem_cons, List.not_mem_nil, or_false] at hmr
  rcases hmr with rfl | rfl | rfl | rfl
  · exact ⟨rfl, Or.inl (hval _ he)⟩
  · exact ⟨rfl, Or.inr (Or.inl (hval _ he))⟩
  · exact ⟨rfl, Or.inr (Or.inr (Or.inl (hval _ he)))⟩
  · exact ⟨rfl, Or.inr (Or.inr (Or.inr (hval _ he)))⟩

theorem describeResources_points (env : ECSEnv) (cluster : String)
    (instances : List String) (cpu memory : Int) (hcpu : 0 ≤ cpu) (hmem : 0 ≤ memory)
    (henv : ∀ cis, env.describeContainerInstancesResult cluster instances = some cis →
      ∀ ci ∈ cis, (∀ r ∈ ci.RegisteredResources, 0 ≤ r.IntegerValue)
        ∧ (∀ r ∈ ci.RemainingResources, 0 ≤ r.IntegerValue)) :
    ∀ d ∈ (DescribeResourcesByInstanceType env cluster instances cpu memory).1,
      d.Unit = "Count" ∧ 0 ≤ d.Value := by
  intro d hd
  have hd' : d ∈ (capacityLedger cluster cpu memory
      (DescribeContainerInstancesOp env cluster instances).1).ToMetricData env.now := hd
  have hL : ∀ ci ∈ (DescribeContainerInstancesOp env cluster instances).1,
      (∀ r ∈ ci.RegisteredResources, 0 ≤ r.IntegerValue)
        ∧ (∀ r ∈ ci.RemainingResources, 0 ≤ r.IntegerValue) := by
    show ∀ ci ∈ (match env.describeContainerInstancesResult cluster instances with
      | none => []
      | some cis => cis), _
    cases heq : env.describeContainerInstancesResult cluster instances with
    | none => intro ci hci; exact absurd hci (by simp)
    | some cis => exact henv cis heq
  have hvacuous : ∀ x ∈ goMapValues ([] : List (String × Int)), (0:Int) ≤ x := by
    intro x hx
    exact absurd hx (by simp [goMapValues])
  have hnn := capacityFold_values_nonneg cpu memory hcpu hmem
    (DescribeContainerInstancesOp env cluster instances).1 (NewClusterResources cluster)
    hL hvacuous hvacuous hvacuous hvacuous
  obtain ⟨hunit, hv⟩ := toMetricData_value_mem _ _ d hd'
  refine ⟨hunit, ?_⟩
  rcases hv with hv | hv | hv | hv
  · exact hnn.1 _ hv
  · exact hnn.2.1 _ hv
  · exact hnn.2.2.1 _ hv
  · exact hnn.2.2.2 _ hv

/-- Environment exhibiting C9's divergence: the provider reports a container
instance whose registered CPU resource carries a negative integer value. -/
def envNeg : ECSEnv :=
  { taskPages := fun _ => [["task-1"]],
    describeTasksResult := fun _ _ => some [⟨"1024", "2048"⟩],
    listContainerInstancesResult := fun _ => some ["instance-1"],
    describeContainerInstancesResult := fun _ _ =>
      some [{ Attributes := [{ Name := "ecs.instance-type", Value := "t3.large" }],
              RegisteredResources := [⟨"CPU", -1024⟩],
              RemainingResources := [] }],
    now := 0 }

/-- C9 counterexample: with a provider-supplied registered CPU value of -1024
and footprint (1024, 2048), the pass emits a RegisteredSchedulable point whose
value is -1, a negative number — so the claim's universal non-negativity over
all provider inputs fails. -/
theorem metric_value_negative_counterexample :
    ({ MetricName := "RegisteredSchedulable",
       Dimensions := [{ Name := "ClusterName", Value := "c" },
                      { Name := "InstanceType", Value := "t3.large" }],
       Timestamp := 0, Value := -1, Unit := "Count" } : MetricDatum) ∈
      (MeasureCluster envNeg "c").1
    ∧ (-1 : Int) < 0 :=
  ⟨by decide, by decide⟩

/-- C9 (amended): every metric point a measurement pass hands to the backend
has unit "Count" and an integer value, and whenever the provider-supplied
container-instance resource values are non-negative, every point's value is
non-negative.  (For a negative provider-supplied resource value the code can
emit a negative count; see the counterexample.) -/
theorem metric_points_count_nonneg :
    ∀ (env : ECSEnv) (cluster : String),
      (∀ (cl : String) (ins : List String) (cis : List ContainerInstance),
        env.describeContainerInstancesResult cl ins = some cis →
        ∀ ci ∈ cis, (∀ r ∈ ci.RegisteredResources, 0 ≤ r.IntegerValue)
          ∧ (∀ r ∈ ci.RemainingResources, 0 ≤ r.IntegerValue)) →
      ∀ d ∈ (MeasureCluster env cluster).1, d.Unit = "Count" ∧ 0 ≤ d.Value := by
  intro env cluster henv d hd
  simp only [MeasureCluster] at hd
  by_cases hz : (taskFootprintVal env cluster).1 = 0 ∨ (taskFootprintVal env cluster).2 = 0
  · rw [if_pos hz] at hd
    exact absurd hd (by simp)
  · rw [if_neg hz] at hd
    have hnn := taskFootprintVal_nonneg env cluster
    exact describeResources_points env cluster _ _ _ hnn.1 hnn.2
      (fun cis heq => henv cluster _ cis heq) d hd

theorem metric_points_count_nonneg_witness :
    ({ MetricName := "LowestCommonMultipleCPU",
       Dimensions := [{ Name := "ClusterName", Value := "fake-ecs-cluster" },
                      { Name := "InstanceType", Value := "fake.2xlarge" }],
       Timestamp := 5, Value := 1024, Unit := "Count" } : MetricDatum) ∈
      (MeasureCluster envFull "fake-ecs-cluster").1
    ∧ ({ MetricName := "LowestCommonMultipleCPU",
         Dimensions := [{ Name := "ClusterName", Value := "fake-ecs-cluster" },
                        { Name := "InstanceType", Value := "fake.2xlarge" }],
         Timestamp := 5, Value := 1024, Unit := "Count" } : MetricDatum).Unit = "Count"
    ∧ (0 : Int) ≤ 1024 :=
  ⟨by decide,
    by
      have h := metric_points_count_nonneg envFull "fake-ecs-cluster"
        (by
          intro cl ins cis heq
          have hs : some [ciExample] = some cis := heq
          injection hs with hs'
          subst hs'
          decide)
        { MetricName := "LowestCommonMultipleCPU",
          Dimensions := [{ Name := "ClusterName", Value := "fake-ecs-cluster" },
                         { Name := "InstanceType", Value := "fake.2xlarge" }],
          Timestamp := 5, Value := 1024, Unit := "Count" } (by decide)
      exact ⟨h.1, h.2⟩⟩

theorem publishLoop_batches (cw : CloudWatchEnv) :
    ∀ (fuel : Nat) (l : List MetricDatum),
      publishLoop cw fuel l = (publishBatches fuel l).map (fun b => (b, batchOutcome cw b)) := by
  intro fuel
  induction fuel with
  | zero => intro l; rfl
  | succ f ih =>
    intro l
    unfold publishLoop publishBatches
    by_cases h : l.isEmpty <;> simp [h, ih]

theorem publishBatches_flatten :
    ∀ (fuel : Nat) (l : List MetricDatum), l.length ≤ fuel →
      (publishBatches fuel l).flatten = l := by
  intro fuel
  induction fuel with
  | zero =>
    intro l h
    rw [List.length_eq_zero.mp (Nat.le_antisymm h (Nat.zero_le _))]
    rfl
  | succ f ih =>
    intro l h
    unfold publishBatches
    by_cases he : l.isEmpty
    · rw [if_pos he, List.isEmpty_iff.mp he]
      rfl
    · rw [if_neg he, List.flatten_cons,
        ih (l.drop 20) (by rw [List.length_drop]; omega), List.take_append_drop]

theorem publishBatches_le_20 :
    ∀ (fuel : Nat) (l : List MetricDatum), ∀ b ∈ publishBatches fuel l, b.length ≤ 20 := by
  intro fuel
  induction fuel with
  | zero => intro l b hb; exact absurd hb (by simp [publishBatches])
  | succ f ih =>
    intro l b hb
    unfold publishBatches at hb
    by_cases he : l.isEmpty
    · rw [if_pos he] at hb
      exact absurd hb (by simp)
    · rw [if_neg he] at hb
      rcases List.mem_cons.mp hb with rfl | hb'
      · rw [List.length_take]; omega
      · exact ih _ b hb'

theorem publishBatches_eq_nil :
    ∀ (fuel : Nat) (l : List MetricDatum), l.length ≤ fuel →
      (publishBatches fuel l = [] ↔ l = []) := by
  intro fuel
  induction fuel with
  | zero =>
    intro l h
    rw [List.length_eq_zero.mp (Nat.le_antisymm h (Nat.zero_le _))]
    simp [publishBatches]
  | succ f _ =>
    intro l _
    unfold publishBatches
    by_cases he : l.isEmpty
    · rw [if_pos he]
      simp [List.isEmpty_iff.mp he]
    · rw [if_neg he]
      simp only [List.isEmpty_iff] at he
      simp [he]

theorem publishBatches_dropLast_20 :
    ∀ (fuel : Nat) (l : List MetricDatum), l.length ≤ fuel →
      ∀ b ∈ (publishBatches fuel l).dropLast, b.length = 20 := by
  intro fuel
  induction fuel with
  | zero => intro l h b hb; exact absurd hb (by simp [publishBatches])
  | succ f ih =>
    intro l h b hb
    unfold publishBatches at hb
    by_cases he : l.isEmpty
    · rw [if_pos he] at hb
      exact absurd hb (by simp)
    · rw [if_neg he] at hb
      have hdlen : (l.drop 20).length ≤ f := by rw [List.length_drop]; omega
      by_cases hrest : publishBatches f (l.drop 20) = []
      · rw [hrest] at hb
        exact absurd hb (by simp)
      · rw [List.dropLast_cons_of_ne_nil hrest] at hb
        rcases List.mem_cons.mp hb with rfl | hb'
        · have hd : l.drop 20 ≠ [] := fun hnil =>
            hrest ((publishBatches_eq_nil f (l.drop 20) hdlen).mpr hnil)
          have : 20 < l.length := by
            by_contra hle
            exact hd (List.drop_eq_nil_of_le (by omega))
          rw [List.length_take]
          omega
        · exact ih _ hdlen b hb'

/-- Batch sizes produced by the publishing loop, as a function of the input
length alone. -/
def lenChunks : Nat → Nat → List Nat
  | 0, _ => []
  | fuel + 1, n => if n = 0 then [] else min 20 n :: lenChunks fuel (n - 20)

theorem publishBatches_lengths :
    ∀ (fuel : Nat) (l : List MetricDatum),
      (publishBatches fuel l).map List.length = lenChunks fuel l.length := by
  intro fuel
  induction fuel with
  | zero => intro l; rfl
  | succ f ih =>
    intro l
    unfold publishBatches lenChunks
    by_cases he : l.isEmpty
    · rw [if_pos he, if_pos (by simpa [List.isEmpty_iff_length_eq_zero] using he)]
      rfl
    · rw [if_neg he, if_neg (by simpa [List.isEmpty_iff_length_eq_zero] using he),
        List.map_cons, List.length_take, ih, List.length_drop]

/-- C5: Publish partitions the metric data into consecutive batches of at most
20 in the original order, every batch but possibly the last of size exactly
20; 45 points yield batch sizes 20, 20, 5 in that order; and every batch is
attempted with an outcome computed from that batch alone (validate, then
submit), so one batch's validation or submission failure never prevents the
remaining batches. -/
theorem publish_batching :
    ∀ (cw : CloudWatchEnv) (l : List MetricDatum),
      ((Publish cw l).map Prod.fst).flatten = l
      ∧ (∀ b ∈ (Publish cw l).map Prod.fst, b.length ≤ 20)
      ∧ (∀ b ∈ ((Publish cw l).map Prod.fst).dropLast, b.length = 20)
      ∧ (l.length = 45 → (Publish cw l).map (fun p => p.1.length) = [20, 20, 5])
      ∧ Publish cw l = (publishBatches l.length l).map (fun b => (b, batchOutcome cw b)) := by
  intro cw l
  have hb : Publish cw l = (publishBatches l.length l).map (fun b => (b, batchOutcome cw b)) :=
    publishLoop_batches cw l.length l
  have hmap : (Publish cw l).map Prod.fst = publishBatches l.length l := by
    rw [hb, List.map_map,
      show (Prod.fst ∘ fun b => (b, batchOutcome cw b)) = id from rfl, List.map_id]
  refine ⟨?_, ?_, ?_, ?_, hb⟩
  · rw [hmap]
    exact publishBatches_flatten _ _ le_rfl
  · rw [hmap]
    exact fun b hbm => publishBatches_le_20 _ _ b hbm
  · rw [hmap]
    exact fun b hbm => publishBatches_dropLast_20 _ _ le_rfl b hbm
  · intro h45
    have hcomp : (Publish cw l).map (fun p => p.1.length) =
        ((Publish cw l).map Prod.fst).map List.length := by
      rw [List.map_map]
      rfl
    rw [hcomp, hmap, publishBatches_lengths, h45]
    decide

/-- CloudWatch responses that accept everything. -/
def cwAccept : CloudWatchEnv :=
  { validateOK := fun _ => true, putOK := fun _ => true }

/-- A plain metric point used to exercise the publisher. -/
def datumExample : MetricDatum :=
  { MetricName := "RegisteredSchedulable", Dimensions := [], Timestamp := 0,
    Value := 0, Unit := "Count" }

theorem publish_batching_witness :
    (List.replicate 45 datumExample).length = 45
    ∧ (Publish cwAccept (List.replicate 45 datumExample)).map (fun p => p.1.length) =
        [20, 20, 5] :=
  ⟨by decide,
    (publish_batching cwAccept (List.replicate 45 datumExample)).2.2.2.1 (by decide)⟩

theorem isPrefixOf_append_self : ∀ (l t : List Char), l.isPrefixOf (l ++ t) = true := by
  intro l
  induction l with
  | nil => intro t; simp
  | cons c cs ih =>
    intro t
    rw [List.cons_append, List.isPrefixOf_cons₂]
    simp [ih]

theorem findSplit_append (sep : List Char) (hsep : sep ≠ []) :
    ∀ (p n : List Char),
      (∀ i, i < p.length → sep.isPrefixOf ((p ++ sep ++ n).drop i) = false) →
      findSplit sep (p ++ sep ++ n) = some (p, n) := by
  intro p
  induction p with
  | nil =>
    intro n _
    obtain ⟨c, cs, rfl⟩ : ∃ c cs, sep = c :: cs := by
      cases sep with
      | nil => exact absurd rfl hsep
      | cons c cs => exact ⟨c, cs, rfl⟩
    show findSplit (c :: cs) (c :: (cs ++ n)) = some ([], n)
    unfold findSplit
    have hp : (c :: cs).isPrefixOf (c :: (cs ++ n)) = true := isPrefixOf_append_self (c :: cs) n
    rw [if_pos hp]
    show some ([], (cs ++ n).drop cs.length) = some ([], n)
    rw [List.drop_left]
  | cons c p' ih =>
    intro n hno
    show findSplit sep (c :: (p' ++ sep ++ n)) = some (c :: p', n)
    unfold findSplit
    have h0 : sep.isPrefixOf (c :: (p' ++ sep ++ n)) = false := hno 0 (by simp)
    rw [if_neg (by rw [h0]; exact Bool.false_ne_true)]
    have hshift : ∀ i, i < p'.length →
        sep.isPrefixOf ((p' ++ sep ++ n).drop i) = false := by
      intro i hi
      exact hno (i + 1) (by simpa using Nat.succ_lt_succ hi)
    rw [ih n hshift]

theorem findSplit_none (sep : List Char) :
    ∀ (n : List Char), (∀ i, i < n.length → sep.isPrefixOf (n.drop i) = false) →
      findSplit sep n = none := by
  intro n
  induction n with
  | nil => intro _; rfl
  | cons c cs ih =>
    intro h
    unfold findSplit
    have h0 : sep.isPrefixOf (c :: cs) = false := h 0 (by simp)
    rw [if_neg (by rw [h0]; exact Bool.false_ne_true)]
    have hshift : ∀ i, i < cs.length → sep.isPrefixOf (cs.drop i) = false := by
      intro i hi
      exact h (i + 1) (by simpa using Nat.succ_lt_succ hi)
    rw [ih hshift]

theorem goSplitAux_of_none (sep : List Char) (fuel : Nat) (s : List Char)
    (h : findSplit sep s = none) : goSplitAux sep fuel s = [s] := by
  cases fuel with
  | zero => rfl
  | succ f =>
    unfold goSplitAux
    rw [h]

theorem goSplit_two (sep : List Char) (hsep : sep ≠ []) (p n : List Char)
    (h1 : ∀ i, i < p.length → sep.isPrefixOf ((p ++ sep ++ n).drop i) = false)
    (h2 : ∀ i, i < n.length → sep.isPrefixOf (n.drop i) = false) :
    goSplit sep (p ++ sep ++ n) = [p, n] := by
  unfold goSplit goSplitAux
  rw [findSplit_append sep hsep p n h1]
  show p :: goSplitAux sep (p ++ sep ++ n).length n = [p, n]
  rw [goSplitAux_of_none sep _ n (findSplit_none sep n h2)]

/-- C7: a cluster identifier of the form `prefix ++ ":cluster/" ++ name`, with
the separator occurring nowhere before the shown occurrence and not inside the
name, is mapped by the discovery stream's derivation to exactly the bare name;
the stream emits exactly one derived name per cluster identifier received from
the provider. -/
theorem discoverClusters_name_derivation :
    ∀ (clusterPages : List (List String)) (p n : List Char),
      (∀ i, i < p.length →
        (":cluster/".data).isPrefixOf ((p ++ ":cluster/".data ++ n).drop i) = false) →
      (∀ i, i < n.length → (":cluster/".data).isPrefixOf (n.drop i) = false) →
      deriveClusterName (String.mk (p ++ ":cluster/".data ++ n)) = some (String.mk n)
      ∧ DiscoverClusters clusterPages =
          ((pagesEmitted clusterPages).flatten).map deriveClusterName
      ∧ (DiscoverClusters clusterPages).length =
          ((pagesEmitted clusterPages).flatten).length := by
  intro pages p n h1 h2
  refine ⟨?_, rfl,
    by
      rw [show DiscoverClusters pages =
        ((pagesEmitted pages).flatten).map deriveClusterName from rfl, List.length_map]⟩
  unfold deriveClusterName
  rw [show (String.mk (p ++ ":cluster/".data ++ n)).data = p ++ ":cluster/".data ++ n from rfl]
  rw [goSplit_two (":cluster/".data) (by decide) p n h1 h2]
  rfl

theorem discoverClusters_name_derivation_witness :
    deriveClusterName "arn:aws:ecs:ca-central-1:123456789012:cluster/my-cluster" =
      some "my-cluster"
    ∧ deriveClusterName
        (String.mk ("arn:aws:ecs:ca-central-1:123456789012".data ++ ":cluster/".data ++
          "my-cluster".data)) = some (String.mk "my-cluster".data) :=
  ⟨by decide,
    (discoverClusters_name_derivation []
      "arn:aws:ecs:ca-central-1:123456789012".data "my-cluster".data
      (by decide) (by decide)).1⟩

end Snitch
